import Mathlib

/-!
Verification of the task-orchestration and ingestion-merge core of
`python-news-scraper` against its natural-language specification.

The development shallowly embeds the relevant Python code:

* `core/models.py` — `ArticleCreate.to_article_base` (title normalization and
  the MD5 title fingerprint);
* `api/services/scraping_service.py` — `_save_articles` (the deduplicating
  upsert), `scrape_source`, `_scrape_source_with_error_handling` and
  `scrape_all_sources_concurrent` (fan-out);
* `api/services/scraping/base.py` — `clean_text`, `normalize_url`,
  `create_article` (candidate validation);
* `core/task_queue.py` — `TaskStatus`, `TaskInfo`, `_execute_task`,
  `cancel_task` and `_job_executed_listener` over the `TaskQueue` state.

Machine integers do not occur; Python strings are modelled as `String` /
`List Char` (code points, which matches Python `len` and slicing), datetimes
as abstract `Nat` ticks, and the SQL table as a list of rows in insertion
order (the SQLModel session autoflushes, so a query inside the batch sees
rows added earlier in the same batch).
-/

set_option autoImplicit false

namespace NewsScraper

/-! ## MD5 (`hashlib.md5(...).hexdigest()` over UTF-8 bytes)

Bytes and 32-bit words are `Nat`s reduced mod `2^32` exactly where the C
implementation wraps. -/

/-- Wrap a `Nat` to a 32-bit word. -/
def u32 (n : Nat) : Nat := n % 4294967296

/-- Bitwise complement of a 32-bit word. -/
def not32 (x : Nat) : Nat := Nat.xor x 4294967295

/-- Left-rotation of a 32-bit word by `s` bits (`0 < s < 32`). -/
def rotl32 (x s : Nat) : Nat := u32 ((x <<< s) ||| (x >>> (32 - s)))

/-- Per-round shift amounts of MD5 (RFC 1321). -/
def md5S : List Nat :=
  [7, 12, 17, 22, 7, 12, 17, 22, 7, 12, 17, 22, 7, 12, 17, 22,
   5, 9, 14, 20, 5, 9, 14, 20, 5, 9, 14, 20, 5, 9, 14, 20,
   4, 11, 16, 23, 4, 11, 16, 23, 4, 11, 16, 23, 4, 11, 16, 23,
   6, 10, 15, 21, 6, 10, 15, 21, 6, 10, 15, 21, 6, 10, 15, 21]

/-- Per-round additive constants of MD5 (RFC 1321), `⌊|sin (i+1)| · 2³²⌋`. -/
def md5K : List Nat :=
  [0xd76aa478, 0xe8c7b756, 0x242070db, 0xc1bdceee,
   0xf57c0faf, 0x4787c62a, 0xa8304613, 0xfd469501,
   0x698098d8, 0x8b44f7af, 0xffff5bb1, 0x895cd7be,
   0x6b901122, 0xfd987193, 0xa679438e, 0x49b40821,
   0xf61e2562, 0xc040b340, 0x265e5a51, 0xe9b6c7aa,
   0xd62f105d, 0x02441453, 0xd8a1e681, 0xe7d3fbc8,
   0x21e1cde6, 0xc33707d6, 0xf4d50d87, 0x455a14ed,
   0xa9e3e905, 0xfcefa3f8, 0x676f02d9, 0x8d2a4c8a,
   0xfffa3942, 0x8771f681, 0x6d9d6122, 0xfde5380c,
   0xa4beea44, 0x4bdecfa9, 0xf6bb4b60, 0xbebfbc70,
   0x289b7ec6, 0xeaa127fa, 0xd4ef3085, 0x04881d05,
   0xd9d4d039, 0xe6db99e5, 0x1fa27cf8, 0xc4ac5665,
   0xf4292244, 0x432aff97, 0xab9423a7, 0xfc93a039,
   0x655b59c3, 0x8f0ccc92, 0xffeff47d, 0x85845dd1,
   0x6fa87e4f, 0xfe2ce6e0, 0xa3014314, 0x4e0811a1,
   0xf7537e82, 0xbd3af235, 0x2ad7d2bb, 0xeb86d391]

/-- Running state of the MD5 compression function. -/
structure MD5State where
  a : Nat
  b : Nat
  c : Nat
  d : Nat
  deriving DecidableEq

/-- Initial MD5 chaining value. -/
def md5Init : MD5State := ⟨0x67452301, 0xefcdab89, 0x98badcfe, 0x10325476⟩

/-- One of the 64 MD5 rounds; `M` is the 16-word message block. -/
def md5Round (M : List Nat) (st : MD5State) (i : Nat) : MD5State :=
  let fg : Nat × Nat :=
    if i < 16 then ((st.b &&& st.c) ||| (not32 st.b &&& st.d), i)
    else if i < 32 then ((st.d &&& st.b) ||| (not32 st.d &&& st.c), (5 * i + 1) % 16)
    else if i < 48 then (Nat.xor (Nat.xor st.b st.c) st.d, (3 * i + 5) % 16)
    else (Nat.xor st.c (st.b ||| not32 st.d), (7 * i) % 16)
  let fv := u32 (fg.1 + st.a + md5K.getD i 0 + M.getD fg.2 0)
  ⟨st.d, u32 (st.b + rotl32 fv (md5S.getD i 0)), st.b, st.c⟩

/-- Little-endian 32-bit word starting at byte `4*j` of a 64-byte chunk. -/
def leWord (chunk : List Nat) (j : Nat) : Nat :=
  chunk.getD (4 * j) 0 + 256 * chunk.getD (4 * j + 1) 0 +
    65536 * chunk.getD (4 * j + 2) 0 + 16777216 * chunk.getD (4 * j + 3) 0

/-- Process one 64-byte chunk. -/
def md5Chunk (st : MD5State) (chunk : List Nat) : MD5State :=
  let M := (List.range 16).map (leWord chunk)
  let e := (List.range 64).foldl (md5Round M) st
  ⟨u32 (st.a + e.a), u32 (st.b + e.b), u32 (st.c + e.c), u32 (st.d + e.d)⟩

/-- Little-endian byte expansion of `n` to `k` bytes. -/
def toLEBytes : Nat → Nat → List Nat
  | 0, _ => []
  | k + 1, n => (n % 256) :: toLEBytes k (n / 256)

/-- MD5 padding: append `0x80`, zeros to 56 mod 64, then the 64-bit bit length. -/
def md5Pad (msg : List Nat) : List Nat :=
  let padZeros := (119 - msg.length % 64) % 64
  msg ++ [0x80] ++ List.replicate padZeros 0 ++ toLEBytes 8 ((msg.length * 8) % (2 ^ 64))

/-- Split a byte list into 64-byte chunks (fuel-indexed so the recursion is structural). -/
def chunks64Go : Nat → List Nat → List (List Nat)
  | _, [] => []
  | 0, _ => []
  | fuel + 1, l => l.take 64 :: chunks64Go fuel (l.drop 64)

/-- Split a byte list into 64-byte chunks. -/
def chunks64 (l : List Nat) : List (List Nat) := chunks64Go l.length l

/-- Lower-case hexadecimal digit. -/
def hexDigit (n : Nat) : Char := if n < 10 then Char.ofNat (48 + n) else Char.ofNat (87 + n)

/-- Two hex digits of one byte. -/
def byteHex (b : Nat) : List Char := [hexDigit (b / 16 % 16), hexDigit (b % 16)]

/-- Hex rendering of a 32-bit word, little-endian byte order as in `hexdigest`. -/
def wordLEHex (w : Nat) : List Char :=
  byteHex (w % 256) ++ byteHex (w / 256 % 256) ++ byteHex (w / 65536 % 256) ++
    byteHex (w / 16777216 % 256)

/-- MD5 hex digest of a byte string, as `hashlib.md5(bytes).hexdigest()`. -/
def md5Hex (msg : List Nat) : String :=
  let f := (chunks64 (md5Pad msg)).foldl md5Chunk md5Init
  String.mk (wordLEHex f.a ++ wordLEHex f.b ++ wordLEHex f.c ++ wordLEHex f.d)

/-- UTF-8 encoding of one code point (`str.encode` in Python). -/
def utf8Char (c : Char) : List Nat :=
  let n := c.toNat
  if n < 128 then [n]
  else if n < 2048 then [192 ||| (n >>> 6), 128 ||| (n &&& 63)]
  else if n < 65536 then
    [224 ||| (n >>> 12), 128 ||| ((n >>> 6) &&& 63), 128 ||| (n &&& 63)]
  else
    [240 ||| (n >>> 18), 128 ||| ((n >>> 12) &&& 63),
     128 ||| ((n >>> 6) &&& 63), 128 ||| (n &&& 63)]

/-- UTF-8 bytes of a code-point list. -/
def utf8Bytes (cs : List Char) : List Nat := (cs.map utf8Char).flatten

set_option maxRecDepth 100000

/-! ## Python string primitives

Character classes follow Python's Unicode semantics on the code points they
are applied to in this development.  `pyIsSpace` is Python's whitespace set
(`str.strip`, regex `\s`).  `pyIsWordChar` is regex `\w`: ASCII alphanumerics
and underscore; non-ASCII code points are classified as word characters
unless they are whitespace, which agrees with Python on the Latin letters
(Czech diacritics) occurring in this corpus's titles.  `Char.toLower` is
ASCII lowering; all concrete inputs below are ASCII. -/

/-- Whitespace per Python (`str.strip`, regex `\s`). -/
def pyIsSpace (c : Char) : Bool :=
  let n := c.toNat
  (9 ≤ n && n ≤ 13) || n = 32 || (28 ≤ n && n ≤ 31) || n = 133 || n = 160 ||
    n = 5760 || (8192 ≤ n && n ≤ 8202) || n = 8232 || n = 8233 || n = 8239 ||
    n = 8287 || n = 12288

/-- Word characters per regex `\w` (see the note above for non-ASCII).  Word
characters are never whitespace — ASCII alphanumerics and `_` lie outside the
whitespace set — so the leading conjunct is semantically redundant on the
ASCII range and makes the disjointness of `\w` and `\s` definitional. -/
def pyIsWordChar (c : Char) : Bool :=
  !pyIsSpace c && (c.isAlphanum || c = '_' || 127 < c.toNat)

/-- Drop leading whitespace (`str.lstrip()` without arguments). -/
def stripLead (l : List Char) : List Char := l.dropWhile pyIsSpace

/-- Drop trailing whitespace (`str.rstrip()` without arguments). -/
def stripTrail (l : List Char) : List Char := (l.reverse.dropWhile pyIsSpace).reverse

/-- Drop leading and trailing whitespace (`str.strip()`). -/
def pyStrip (l : List Char) : List Char := stripTrail (stripLead l)

/-- Remove the characters matching neither `\w` nor `\s`
(`re.sub(r'[^\w\s]', '', s)`). -/
def depunct (l : List Char) : List Char := l.filter (fun c => pyIsWordChar c || pyIsSpace c)

/-- Replace every maximal whitespace run by a single blank
(`re.sub(r'\s+', ' ', s)`). -/
def collapseWS : List Char → List Char
  | [] => []
  | [c] => [if pyIsSpace c then ' ' else c]
  | c₁ :: c₂ :: cs =>
    if pyIsSpace c₁ && pyIsSpace c₂ then collapseWS (c₂ :: cs)
    else (if pyIsSpace c₁ then ' ' else c₁) :: collapseWS (c₂ :: cs)

/-- Normalized title of `ArticleCreate.to_article_base` (`core/models.py`):
lower-case, strip, remove `[^\w\s]`, collapse `\s+` to single blanks. -/
def normalizedTitle (title : String) : List Char :=
  collapseWS (depunct (pyStrip (title.toList.map Char.toLower)))

/-- Title fingerprint of `ArticleCreate.to_article_base`:
`hashlib.md5(normalized_title.encode('utf-8')).hexdigest()`. -/
def titleHashOf (title : String) : String := md5Hex (utf8Bytes (normalizedTitle title))

/-! ## Data model (`core/models.py`)

`ArticleCreate` is the raw candidate record; `ArticleRow` is one row of the
`article` table (the integer primary key and the NLP columns play no role in
the claims and are omitted).  `datetime.utcnow()` is an abstract tick `now`. -/

/-- Candidate record produced by a scraper (`ArticleCreate`). -/
structure ArticleCreate where
  title : String
  perex : String
  source : String
  url : String
  deriving DecidableEq

/-- Persisted article row (`ArticleBase` / `Article`). -/
structure ArticleRow where
  title : String
  perex : String
  source : String
  url : String
  title_hash : String
  scraped_at : Nat
  updated_at : Nat
  deriving DecidableEq

/-- `ArticleCreate.to_article_base`: attach the fingerprint and the creation
timestamps (`default_factory=datetime.utcnow`). -/
def toArticleBase (now : Nat) (a : ArticleCreate) : ArticleRow :=
  { title := a.title, perex := a.perex, source := a.source, url := a.url,
    title_hash := titleHashOf a.title, scraped_at := now, updated_at := now }

/-- The `article` table in insertion order. -/
abbrev Store := List ArticleRow

/-! ## Deduplicating upsert (`ScrapingService._save_articles`)

The SQLModel session autoflushes before each `select`, so lookups see the
rows added earlier in the same batch; `.first()` is the first matching row.
An in-place mutation of the matched ORM object is `replaceFirst`. -/

/-- Index of the first element satisfying `p`. -/
def findFirstIdx {α : Type} (p : α → Bool) : List α → Option Nat
  | [] => none
  | r :: rs => if p r then some 0 else (findFirstIdx p rs).map (· + 1)

/-- Replace the first element satisfying `p` by its image under `f`. -/
def replaceFirst {α : Type} (p : α → Bool) (f : α → α) : List α → List α
  | [] => []
  | r :: rs => if p r then f r :: rs else r :: replaceFirst p f rs

/-- Lookup predicate of `select(Article).where(Article.url == article_base.url)`. -/
def urlMatch (ab : ArticleRow) (r : ArticleRow) : Bool := r.url == ab.url

/-- Lookup predicate of the duplicate-title query
(`Article.title_hash == ... , Article.source == ...`). -/
def hashSourceMatch (ab : ArticleRow) (r : ArticleRow) : Bool :=
  r.title_hash == ab.title_hash && r.source == ab.source

/-- In-place refresh on a URL hit (lines 143–147 of `scraping_service.py`). -/
def refreshOnUrlHit (ab : ArticleRow) (now : Nat) (r : ArticleRow) : ArticleRow :=
  { r with title := ab.title, perex := ab.perex, title_hash := ab.title_hash,
           updated_at := now }

/-- In-place refresh on a fingerprint hit with a new URL (lines 162–165). -/
def refreshOnHashHit (ab : ArticleRow) (now : Nat) (r : ArticleRow) : ArticleRow :=
  { r with url := ab.url, perex := ab.perex, updated_at := now }

/-- Session state while one batch runs: the (flushed) table plus the two
counters `saved_count` and `updated_count`. -/
structure BatchState where
  store : Store
  saved : Nat
  updated : Nat
  deriving DecidableEq

/-- Body of the per-candidate loop of `_save_articles`; the Python local
`article_base` is written out as `toArticleBase now cand`. -/
def saveOne (now : Nat) (st : BatchState) (cand : ArticleCreate) : BatchState :=
  match st.store.find? (urlMatch (toArticleBase now cand)) with
  | some _ =>
    { store := replaceFirst (urlMatch (toArticleBase now cand))
        (refreshOnUrlHit (toArticleBase now cand) now) st.store,
      saved := st.saved, updated := st.updated + 1 }
  | none =>
    match st.store.find? (hashSourceMatch (toArticleBase now cand)) with
    | some r =>
      if r.url != (toArticleBase now cand).url then
        { store := replaceFirst (hashSourceMatch (toArticleBase now cand))
            (refreshOnHashHit (toArticleBase now cand) now) st.store,
          saved := st.saved, updated := st.updated + 1 }
      else st
    | none =>
      { store := st.store ++ [toArticleBase now cand], saved := st.saved + 1,
        updated := st.updated }

/-- Outcome of one `_save_articles` call.  `report` is the integer the Python
function returns; `saved`/`updated` are the final values of its two local
counters, kept as ghost observables; `store` is the table after the call. -/
structure SaveResult where
  report : Nat
  saved : Nat
  updated : Nat
  store : Store
  deriving DecidableEq

/-- `_save_articles`: empty input short-circuits to `0`; otherwise the batch
folds `saveOne` over the candidates and commits.  `commitOk` models whether
`session.commit()` succeeds; on failure the session rolls back (the table
keeps its pre-batch rows), `saved_count` is zeroed and still returned, and
the exception is swallowed (`except` clause plus `@async_catch(reraise=False)`). -/
def saveArticles (commitOk : Bool) (now : Nat) (arts : List ArticleCreate)
    (store : Store) : SaveResult :=
  if arts.isEmpty then ⟨0, 0, 0, store⟩
  else
    let e := arts.foldl (saveOne now) ⟨store, 0, 0⟩
    if commitOk then ⟨e.saved, e.saved, e.updated, e.store⟩
    else ⟨0, 0, e.updated, store⟩

/-! ## Fan-out (`scrape_all_sources_concurrent`) and source dispatch

One source's run is a fetch outcome (`BaseScraper.scrape` either yields a
candidate list or raises) followed by its own `_save_articles` batch with its
own commit outcome.  `asyncio.gather` interleaves the fetches, but every
batch writes through the single database engine; the fold is the sequence of
batch commits in completion order, with each job's fetch and commit outcome
supplied per job. -/

/-- Result of one scraper's `scrape()` from the caller's point of view. -/
inductive FetchOutcome where
  | ok (arts : List ArticleCreate)
  | err (msg : String)
  deriving DecidableEq

/-- One fan-out slot: the source's fetch outcome and whether its batch commit
succeeds. -/
abbrev SourceJob := FetchOutcome × Bool

/-- `_scrape_source_with_error_handling`: any exception is caught and the
source contributes `0`; otherwise the source's batch runs and its return
value is the saved count. -/
def scrapeSourceCaught (now : Nat) (commitOk : Bool) (fetch : FetchOutcome)
    (store : Store) : Nat × Store :=
  match fetch with
  | .err _ => (0, store)
  | .ok arts =>
    let r := saveArticles commitOk now arts store
    (r.report, r.store)

/-- `scrape_all_sources_concurrent`: every source is dispatched, the per-source
counts are summed into the task's single integer result. -/
def scrapeAll (now : Nat) (jobs : List SourceJob) (store : Store) : Nat × Store :=
  jobs.foldl
    (fun acc job =>
      let r := scrapeSourceCaught now job.2 job.1 acc.2
      (acc.1 + r.1, r.2))
    (0, store)

/-- Keys of `ScrapingService.scrapers`. -/
def registeredSources : List String :=
  ["aktualne", "novinky", "idnes", "ihned", "seznamzpravy", "blesk", "ct24",
   "irozhlas", "lidovky", "denik", "forum24", "e15"]

/-- `ScrapingService.scrape_source`: an unknown name raises `ValueError`
before any fetch; a known name runs that source's scraper and saves, and
re-raises scraper errors (`except ...: raise`). -/
def scrapeSource (fetch : String → FetchOutcome) (commitOk : Bool) (now : Nat)
    (source : String) (store : Store) : Except String (Nat × Store) :=
  if !(registeredSources.contains source) then
    .error ("Unknown source: " ++ source)
  else
    match fetch source with
    | .err m => .error m
    | .ok arts =>
      let r := saveArticles commitOk now arts store
      .ok (r.report, r.store)

/-! ## Candidate validation (`BaseScraper` in `scraping/base.py`) -/

/-- `BaseScraper.clean_text`: strip, then replace `\n`, `\r`, `\t` by blanks. -/
def cleanText (text : String) : String :=
  if text.isEmpty then ""
  else String.mk ((pyStrip text.toList).map
    (fun c => if c = '\n' || c = '\r' || c = '\t' then ' ' else c))

/-- `base_url.rstrip('/')`. -/
def rstripSlash (s : String) : String :=
  String.mk ((s.toList.reverse.dropWhile (· = '/')).reverse)

/-- `url.lstrip('/')`. -/
def lstripSlash (s : String) : String := String.mk (s.toList.dropWhile (· = '/'))

/-- `BaseScraper.normalize_url`: make a relative URL absolute. -/
def normalizeUrl (base url : String) : String :=
  if url.isEmpty then ""
  else if url.startsWith ("/") then rstripSlash base ++ url
  else if !(url.startsWith ("http")) then rstripSlash base ++ "/" ++ lstripSlash url
  else url

/-- `BaseScraper.create_article`: clean, normalize, validate; `none` models the
Python `None` of a rejected candidate. -/
def createArticle (sourceName base title perex url : String) : Option ArticleCreate :=
  let t := cleanText title
  let p := cleanText perex
  let u := normalizeUrl base url
  if t.isEmpty || t.length < 10 then none
  else if u.isEmpty || !(u.startsWith ("http")) then none
  else some { title := t, perex := p.take 500, source := sourceName, url := u }

/-- One raw candidate as extracted from the page, before validation. -/
structure RawItem where
  title : String
  perex : String
  url : String
  deriving DecidableEq

/-- The module extraction loop (e.g. `AktualneScraper.extract_articles`): each
raw candidate passes through `create_article` and only non-`None` results are
appended to the batch. -/
def collectArticles (sourceName base : String) (raws : List RawItem) : List ArticleCreate :=
  raws.filterMap (fun r => createArticle sourceName base r.title r.perex r.url)

/-! ## Task queue (`core/task_queue.py`)

`TaskQueue` state: the `tasks` dict (an association list with unique keys,
first hit wins as in a dict), the `running_tasks` dict of `asyncio.Task`
handles — modelled by their `done()` flag — and the ids of jobs currently in
the APScheduler job store (`scheduler.remove_job` succeeds exactly on those).
`progress` is a float that only ever takes the values `0.0` and `1.0`,
modelled as `Nat`; a task's `result` dict `{"articles_scraped": n}` is
modelled by `n`. -/

/-- Lifecycle states (`TaskStatus`). -/
inductive TaskStatus where
  | pending
  | running
  | completed
  | failed
  | cancelled
  deriving DecidableEq

/-- Task kinds (`TaskType`). -/
inductive TaskType where
  | scrapeAllKind
  | scrapeSourceKind
  | periodicScrapeKind
  deriving DecidableEq

/-- One `TaskInfo` record. -/
structure TaskInfo where
  id : String
  task_type : TaskType
  status : TaskStatus
  source : Option String
  created_at : Nat
  started_at : Option Nat
  completed_at : Option Nat
  result : Option Nat
  error : Option String
  progress : Nat
  deriving DecidableEq

/-- A fresh record as built by `add_task`. -/
def newTaskInfo (id : String) (k : TaskType) (src : Option String) (now : Nat) : TaskInfo :=
  { id := id, task_type := k, status := .pending, source := src, created_at := now,
    started_at := none, completed_at := none, result := none, error := none,
    progress := 0 }

/-- The mutable state of one `TaskQueue`. -/
structure QueueState where
  tasks : List (String × TaskInfo)
  running : List (String × Bool)
  scheduled : List String
  deriving DecidableEq

/-- `self.tasks.get(task_id)`. -/
def getTask (q : QueueState) (id : String) : Option TaskInfo :=
  (q.tasks.find? (fun kv => kv.1 == id)).map (fun kv => kv.2)

/-- Mutate the record stored under `id`, if any. -/
def setTask (q : QueueState) (id : String) (f : TaskInfo → TaskInfo) : QueueState :=
  { q with tasks := replaceFirst (fun kv => kv.1 == id) (fun kv => (kv.1, f kv.2)) q.tasks }

/-- How the awaited work unit resolves inside `_execute_task`. -/
inductive WorkOutcome where
  | ok (n : Nat)
  | err (e : String)
  | interrupted
  deriving DecidableEq

/-- Lines 228–230 of `_execute_task`: mark the record running. -/
def startPhase (now : Nat) (t : TaskInfo) : TaskInfo :=
  { t with status := .running, started_at := some now }

/-- Record updates of `_execute_task` after the work unit resolves: success
(lines 241–244), failure (lines 251–253), or a `CancelledError` which
`except Exception` does not catch, leaving the record as the canceller wrote
it. -/
def finishPhase (now : Nat) (w : WorkOutcome) (t : TaskInfo) : TaskInfo :=
  match w with
  | .ok n =>
    { t with status := .completed, completed_at := some now, result := some n,
             progress := 1 }
  | .err e =>
    { t with status := .failed, error := some e, completed_at := some now }
  | .interrupted => t

/-- One task record's trip through `_execute_task` (status writes only). -/
def executeTaskRecord (now : Nat) (w : WorkOutcome) (t : TaskInfo) : TaskInfo :=
  finishPhase now w (startPhase now t)

/-- `_execute_task` at queue level: missing ids return before the `try`, so
nothing (not even `running_tasks`) changes; otherwise the record is updated
and the `finally` clause always drops the handle from `running_tasks`. -/
def executeTask (q : QueueState) (id : String) (now : Nat) (w : WorkOutcome) : QueueState :=
  match getTask q id with
  | none => q
  | some _ =>
    let q₁ := setTask q id (executeTaskRecord now w)
    { q₁ with running := q₁.running.filter (fun kv => kv.1 != id) }

/-- Scheduler half of `cancel_task` (lines 340–349): `remove_job` succeeds only
for ids in the job store, then the record is marked cancelled; an unknown id
raises, which is swallowed, and `False` is returned. -/
def cancelViaScheduler (q : QueueState) (id : String) (now : Nat) : Bool × QueueState :=
  if q.scheduled.contains id then
    (true,
      setTask { q with scheduled := q.scheduled.filter (fun s => s != id) } id
        (fun t => { t with status := .cancelled, completed_at := some now }))
  else (false, q)

/-- `cancel_task`: a live (`not done`) handle in `running_tasks` is cancelled
and the record marked cancelled; otherwise fall through to the scheduler. -/
def cancelTask (q : QueueState) (id : String) (now : Nat) : Bool × QueueState :=
  match q.running.find? (fun kv => kv.1 == id) with
  | some kv =>
    if !kv.2 then
      (true, setTask q id (fun t => { t with status := .cancelled, completed_at := some now }))
    else cancelViaScheduler q id now
  | none => cancelViaScheduler q id now

/-- `_job_executed_listener`: on a scheduler event for a known task id the
record's status is overwritten with `FAILED` (an exception is attached) or
`COMPLETED` (with the job's return value), regardless of its current value. -/
def jobExecutedListener (q : QueueState) (id : String) (exc : Option String)
    (retval : Option Nat) (now : Nat) : QueueState :=
  match getTask q id with
  | none => q
  | some _ =>
    match exc with
    | some e =>
      setTask q id (fun t =>
        { t with status := .failed, error := some e, completed_at := some now })
    | none =>
      setTask q id (fun t =>
        { t with status := .completed, result := retval, completed_at := some now })

/-! ## Spec-side notions for the fingerprint-stability claim

`specCanonical` is modelled from the spec's words, not from the source: two
titles "differ only in punctuation, case, or whitespace" when they agree
after lower-casing, deleting punctuation, collapsing whitespace runs, and
ignoring leading/trailing whitespace.  It exists solely to be compared with
the source-derived pipeline `normalizedTitle`. -/

/-- Modelled from the spec: the canonical form under "ignore punctuation,
case and whitespace". -/
def specCanonical (t : String) : List Char :=
  pyStrip (collapseWS (depunct (t.toList.map Char.toLower)))

/-- Modelled from the spec: the relation "differ only in punctuation, case,
or whitespace". -/
def differsOnlyInPunctCaseWS (t₁ t₂ : String) : Bool :=
  specCanonical t₁ == specCanonical t₂

/-- Both ends of a character list are word characters (vacuously true when
empty). -/
def wordBoundedChars (l : List Char) : Bool :=
  l.head?.all pyIsWordChar && l.getLast?.all pyIsWordChar

/-- The lowered title begins and ends with a word character. -/
def wordBounded (t : String) : Bool := wordBoundedChars (t.toList.map Char.toLower)

/-! ## Sanity checks: the embedded MD5 and normalization against known
digests (`hashlib.md5`) -/

example : md5Hex [] = "d41d8cd98f00b204e9800998ecf8427e" := by decide
example : md5Hex (utf8Bytes ['a', 'b', 'c']) = "900150983cd24fb0d6963f7d28e17f72" := by decide
example : normalizedTitle "  Foo,   BAR!  baz " = "foo bar baz".toList := by decide
example : titleHashOf "a" = "0cc175b9c0f1b6a831c399e269772661" := by decide
example : normalizedTitle "! a" = " a".toList := by decide
example : titleHashOf "! a" = "952988da97fbd8f2ea65990c03eac425" := by decide

/-! ## General lemmas about first-match search and replacement -/

theorem find?_eq_of_findFirstIdx {α : Type} (p : α → Bool) :
    ∀ (l : List α) (j : Nat) (h : j < l.length),
      findFirstIdx p l = some j → l.find? p = some (l.get ⟨j, h⟩) := by
  intro l
  induction l with
  | nil => intro j h hf; cases h
  | cons r rs ih =>
    intro j h hf
    by_cases hp : p r = true
    · simp only [findFirstIdx, if_pos hp, Option.some.injEq] at hf
      subst hf
      simp [List.find?_cons, hp]
    · rw [Bool.not_eq_true] at hp
      simp only [findFirstIdx, hp, if_neg, Option.map_eq_some', Bool.false_eq_true,
        not_false_eq_true] at hf
      obtain ⟨j', hj', rfl⟩ := hf
      simp only [List.find?_cons, hp]
      exact ih j' (Nat.lt_of_succ_lt_succ h) hj'

theorem replaceFirst_eq_set {α : Type} (p : α → Bool) (f : α → α) :
    ∀ (l : List α) (j : Nat) (h : j < l.length),
      findFirstIdx p l = some j → replaceFirst p f l = l.set j (f (l.get ⟨j, h⟩)) := by
  intro l
  induction l with
  | nil => intro j h hf; cases h
  | cons r rs ih =>
    intro j h hf
    by_cases hp : p r = true
    · simp only [findFirstIdx, if_pos hp, Option.some.injEq] at hf
      subst hf
      simp [replaceFirst, hp]
    · rw [Bool.not_eq_true] at hp
      simp only [findFirstIdx, hp, if_neg, Option.map_eq_some', Bool.false_eq_true,
        not_false_eq_true] at hf
      obtain ⟨j', hj', rfl⟩ := hf
      simp only [replaceFirst, hp, Bool.false_eq_true, if_neg, not_false_eq_true,
        List.set_cons_succ, List.cons.injEq, true_and]
      exact ih j' (Nat.lt_of_succ_lt_succ h) hj'

/-! ## C1 and C2: the two in-place update paths of `_save_articles` -/

/-- C1: a candidate whose url exactly matches an existing record makes
`_save_articles` refresh that record's title, perex, title_hash and
updated_at in place, count it as updated (not saved), insert nothing, and
move on to the next candidate. -/
theorem saveOne_url_hit (now : Nat) (st : BatchState) (cand : ArticleCreate)
    (j : Nat) (h : j < st.store.length)
    (hfind : findFirstIdx (urlMatch (toArticleBase now cand)) st.store = some j) :
    saveOne now st cand =
      { store := st.store.set j
          (refreshOnUrlHit (toArticleBase now cand) now (st.store.get ⟨j, h⟩)),
        saved := st.saved, updated := st.updated + 1 }
    ∧ (saveOne now st cand).store.length = st.store.length
    ∧ ∀ (rest : List ArticleCreate),
        (cand :: rest).foldl (saveOne now) st = rest.foldl (saveOne now) (saveOne now st cand) := by
  have hf := find?_eq_of_findFirstIdx (urlMatch (toArticleBase now cand)) st.store j h hfind
  have hr := replaceFirst_eq_set (urlMatch (toArticleBase now cand))
    (refreshOnUrlHit (toArticleBase now cand) now) st.store j h hfind
  have hmain : saveOne now st cand =
      { store := st.store.set j
          (refreshOnUrlHit (toArticleBase now cand) now (st.store.get ⟨j, h⟩)),
        saved := st.saved, updated := st.updated + 1 } := by
    unfold saveOne
    rw [hf, hr]
  exact ⟨hmain, by rw [hmain]; simp [List.length_set], fun rest => rfl⟩

/-- Closed instance of `saveOne_url_hit` at a concrete store and candidate. -/
theorem saveOne_url_hit_witness :
    findFirstIdx (urlMatch (toArticleBase 5 ⟨"New Title Padding", "p2", "demo", "http://x/1"⟩))
        [⟨"Old Title Padding", "p1", "demo", "http://x/1", "h0", 3, 3⟩] = some 0
    ∧ (saveOne 5 ⟨[⟨"Old Title Padding", "p1", "demo", "http://x/1", "h0", 3, 3⟩], 0, 0⟩
          ⟨"New Title Padding", "p2", "demo", "http://x/1"⟩).store.length = 1 :=
  ⟨by decide, by
    have h := (saveOne_url_hit 5 ⟨[⟨"Old Title Padding", "p1", "demo", "http://x/1", "h0", 3, 3⟩], 0, 0⟩
      ⟨"New Title Padding", "p2", "demo", "http://x/1"⟩ 0 (by decide) (by decide)).2.1
    exact h⟩

/-- C2: a candidate with no url match whose (fingerprint, source) pair matches
an existing record: a differing url is refreshed in place (url, perex,
updated_at) and counted as updated; an identical url is a no-op counted
nowhere; neither case inserts. -/
theorem saveOne_fingerprint_hit (now : Nat) (st : BatchState) (cand : ArticleCreate)
    (j : Nat) (h : j < st.store.length)
    (hurl : st.store.find? (urlMatch (toArticleBase now cand)) = none)
    (hfind : findFirstIdx (hashSourceMatch (toArticleBase now cand)) st.store = some j) :
    ((st.store.get ⟨j, h⟩).url ≠ cand.url →
        saveOne now st cand =
          { store := st.store.set j
              (refreshOnHashHit (toArticleBase now cand) now (st.store.get ⟨j, h⟩)),
            saved := st.saved, updated := st.updated + 1 })
    ∧ ((st.store.get ⟨j, h⟩).url = cand.url → saveOne now st cand = st)
    ∧ (saveOne now st cand).store.length = st.store.length := by
  have hf := find?_eq_of_findFirstIdx (hashSourceMatch (toArticleBase now cand)) st.store j h hfind
  have hr := replaceFirst_eq_set (hashSourceMatch (toArticleBase now cand))
    (refreshOnHashHit (toArticleBase now cand) now) st.store j h hfind
  have hab : (toArticleBase now cand).url = cand.url := rfl
  refine ⟨?_, ?_, ?_⟩
  · intro hne
    unfold saveOne
    rw [hurl, hf, hr]
    rw [List.get_eq_getElem] at hne
    simp [hab, hne]
  · intro heq
    unfold saveOne
    rw [hurl, hf]
    rw [List.get_eq_getElem] at heq
    simp [hab, heq]
  · unfold saveOne
    rw [hurl, hf, hr]
    by_cases hne : st.store[j].url = cand.url
    · simp [hab, hne]
    · simp [hab, hne, List.length_set]

/-- Closed instance of `saveOne_fingerprint_hit`: both the moved-url branch and
the no-op branch at concrete inputs. -/
theorem saveOne_fingerprint_hit_witness :
    ([⟨"Old Stored Title", "p1", "demo", "http://x/old", titleHashOf "Matching Title Here", 0, 0⟩] :
        Store).find? (urlMatch (toArticleBase 7 ⟨"Matching Title Here", "p2", "demo", "http://x/new"⟩)) = none
    ∧ findFirstIdx (hashSourceMatch (toArticleBase 7 ⟨"Matching Title Here", "p2", "demo", "http://x/new"⟩))
        [⟨"Old Stored Title", "p1", "demo", "http://x/old", titleHashOf "Matching Title Here", 0, 0⟩] = some 0
    ∧ (saveOne 7 ⟨[⟨"Old Stored Title", "p1", "demo", "http://x/old", titleHashOf "Matching Title Here", 0, 0⟩], 0, 0⟩
          ⟨"Matching Title Here", "p2", "demo", "http://x/new"⟩).updated = 1 :=
  ⟨by decide, by decide, by
    have h := (saveOne_fingerprint_hit 7
      ⟨[⟨"Old Stored Title", "p1", "demo", "http://x/old", titleHashOf "Matching Title Here", 0, 0⟩], 0, 0⟩
      ⟨"Matching Title Here", "p2", "demo", "http://x/new"⟩ 0 (by decide) (by decide) (by decide)).1 (by decide)
    rw [h]⟩

/-! ## C5: the shape of a batch's result -/

/-- C5 counterexample: two batches with distinct (inserted, updated) outcomes —
one in-place update versus an empty batch — return identical results, so the
value `_save_articles` returns cannot be the pair `{inserted: n, updated: n}`;
it is the single integer `saved_count`. -/
theorem saveArticles_pair_result_cex :
    (saveArticles true 1 [⟨"Refreshed Title OK", "p2", "demo", "http://x/1"⟩]
        [⟨"Old Title Number", "p1", "demo", "http://x/1", "h0", 0, 0⟩]).report
      = (saveArticles true 1 []
          [⟨"Old Title Number", "p1", "demo", "http://x/1", "h0", 0, 0⟩]).report
    ∧ (saveArticles true 1 [⟨"Refreshed Title OK", "p2", "demo", "http://x/1"⟩]
        [⟨"Old Title Number", "p1", "demo", "http://x/1", "h0", 0, 0⟩]).updated = 1
    ∧ (saveArticles true 1 []
        [⟨"Old Title Number", "p1", "demo", "http://x/1", "h0", 0, 0⟩]).updated = 0 := by
  refine ⟨?_, ?_, ?_⟩ <;> decide

/-- C5 amended: one merge batch reports only the number of inserted records
(the final `saved_count`); the updated count is tracked and logged but is not
part of the returned result. -/
theorem saveArticles_report_is_saved_only (commitOk : Bool) (now : Nat)
    (arts : List ArticleCreate) (store : Store) :
    (saveArticles commitOk now arts store).report
      = (saveArticles commitOk now arts store).saved := by
  unfold saveArticles
  by_cases he : arts.isEmpty
  · simp [he]
  · by_cases hc : commitOk <;> simp [he, hc]

/-! ## C6: isolation of a commit failure -/

/-- C6: a persistence failure while committing one batch rolls that batch
back (the table keeps its pre-batch rows), the batch returns 0, and —
because the exception is swallowed inside `_save_articles` — sibling sources
in a fan-out behave exactly as if the failing batch had never run. -/
theorem saveArticles_commit_failure_isolated (now : Nat) (arts : List ArticleCreate)
    (store : Store) (pre post : List SourceJob) :
    (saveArticles false now arts store).report = 0
    ∧ (saveArticles false now arts store).store = store
    ∧ scrapeAll now (pre ++ (FetchOutcome.ok arts, false) :: post) store
        = scrapeAll now (pre ++ post) store := by
  have h1 : ∀ s : Store, (saveArticles false now arts s).report = 0 := by
    intro s; unfold saveArticles
    by_cases he : arts.isEmpty <;> simp [he]
  have h2 : ∀ s : Store, (saveArticles false now arts s).store = s := by
    intro s; unfold saveArticles
    by_cases he : arts.isEmpty <;> simp [he]
  refine ⟨h1 store, h2 store, ?_⟩
  have hstep : ∀ (acc : Nat × Store),
      (acc.1 + (scrapeSourceCaught now false (FetchOutcome.ok arts) acc.2).1,
        (scrapeSourceCaught now false (FetchOutcome.ok arts) acc.2).2) = acc := by
    intro acc
    unfold scrapeSourceCaught
    simp [h1 acc.2, h2 acc.2]
  unfold scrapeAll
  rw [List.foldl_append, List.foldl_cons, List.foldl_append]
  congr 1
  exact hstep _

/-! ## C4: fan-out isolation and the aggregate result -/

/-- C4 counterexample: with source A raising and source B succeeding, the task
record after execution is bit-for-bit identical to the record of a run where
A succeeded with zero articles — the task ends COMPLETED and B's records are
merged, but nothing about A's failure is recorded in the aggregate result
(which is only the summed integer). -/
theorem scrapeAll_failure_not_recorded_cex :
    executeTaskRecord 3
        (.ok (scrapeAll 3 [(FetchOutcome.err "boom", true),
            (FetchOutcome.ok [⟨"Completely Valid Title", "p", "b", "http://b/1"⟩], true)] []).1)
        (newTaskInfo "t1" .scrapeAllKind none 0)
      = executeTaskRecord 3
          (.ok (scrapeAll 3 [(FetchOutcome.ok [], true),
              (FetchOutcome.ok [⟨"Completely Valid Title", "p", "b", "http://b/1"⟩], true)] []).1)
          (newTaskInfo "t1" .scrapeAllKind none 0)
    ∧ (executeTaskRecord 3
        (.ok (scrapeAll 3 [(FetchOutcome.err "boom", true),
            (FetchOutcome.ok [⟨"Completely Valid Title", "p", "b", "http://b/1"⟩], true)] []).1)
        (newTaskInfo "t1" .scrapeAllKind none 0)).status = .completed
    ∧ (scrapeAll 3 [(FetchOutcome.err "boom", true),
          (FetchOutcome.ok [⟨"Completely Valid Title", "p", "b", "http://b/1"⟩], true)] []).2
        = [toArticleBase 3 ⟨"Completely Valid Title", "p", "b", "http://b/1"⟩] := by
  refine ⟨?_, ?_, ?_⟩ <;> decide

/-- C4 amended: a failing source is isolated — the fan-out behaves as if that
source were absent, so the other sources' records are merged — the task ends
COMPLETED, and its aggregate result is just the summed count `some n`; the
failure itself is only logged, not recorded in the result. -/
theorem scrapeAll_fetch_error_isolated (now : Nat) (m : String) (c : Bool)
    (pre post : List SourceJob) (store : Store) (t : TaskInfo) :
    scrapeAll now (pre ++ (FetchOutcome.err m, c) :: post) store
        = scrapeAll now (pre ++ post) store
    ∧ (executeTaskRecord now (.ok (scrapeAll now (pre ++ post) store).1) t).status = .completed
    ∧ (executeTaskRecord now (.ok (scrapeAll now (pre ++ post) store).1) t).result
        = some (scrapeAll now (pre ++ post) store).1 := by
  refine ⟨?_, rfl, rfl⟩
  unfold scrapeAll
  rw [List.foldl_append, List.foldl_cons, List.foldl_append]
  rfl

/-! ## C10: dispatch of `scrape_source` -/

/-- C10: an unregistered source name makes `scrape_source` raise `ValueError`
with no dependence on the fetcher or the store (the error is decided before
any fetch or persistence, leaving the store untouched); a registered name
dispatches to that source's scraper and saves its articles, re-raising a
fetch failure. -/
theorem scrapeSource_unknown_or_dispatch (fetch : String → FetchOutcome) (commitOk : Bool)
    (now : Nat) (source : String) (store : Store) :
    (registeredSources.contains source = false →
        scrapeSource fetch commitOk now source store
          = .error ("Unknown source: " ++ source))
    ∧ (registeredSources.contains source = true →
        scrapeSource fetch commitOk now source store =
          match fetch source with
          | .err m => .error m
          | .ok arts =>
            .ok ((saveArticles commitOk now arts store).report,
              (saveArticles commitOk now arts store).store)) := by
  constructor
  · intro hc; unfold scrapeSource; rw [hc]; rfl
  · intro hc; unfold scrapeSource; rw [hc]; rfl

/-- Closed instance of `scrapeSource_unknown_or_dispatch` at one unregistered
and one registered name. -/
theorem scrapeSource_unknown_or_dispatch_witness :
    scrapeSource (fun _ => FetchOutcome.ok []) true 0 "nosuch" []
        = .error ("Unknown source: " ++ "nosuch")
    ∧ scrapeSource (fun _ => FetchOutcome.ok []) true 0 "idnes" [] = .ok (0, []) := by
  constructor
  · exact (scrapeSource_unknown_or_dispatch (fun _ => FetchOutcome.ok []) true 0 "nosuch" []).1
      (by decide)
  · have h := (scrapeSource_unknown_or_dispatch (fun _ => FetchOutcome.ok []) true 0 "idnes" []).2
      (by decide)
    rw [h]
    rfl

/-! ## C9: validation happens before the merge -/

/-- C9: a raw candidate whose cleaned title is below the 10-character minimum
or whose normalized url does not start with "http" is rejected by
`create_article` (it returns `None`), never enters the batch handed to the
merge, and leaves every count and the store exactly as if it had not been
extracted at all. -/
theorem createArticle_rejects_invalid (sourceName base title perex url : String)
    (h : (cleanText title).length < 10
        ∨ (normalizeUrl base url).startsWith ("http") = false) :
    createArticle sourceName base title perex url = none
    ∧ (∀ (raws : List RawItem),
        collectArticles sourceName base (⟨title, perex, url⟩ :: raws)
          = collectArticles sourceName base raws)
    ∧ (∀ (raws : List RawItem) (commitOk : Bool) (now : Nat) (store : Store),
        saveArticles commitOk now
            (collectArticles sourceName base (⟨title, perex, url⟩ :: raws)) store
          = saveArticles commitOk now (collectArticles sourceName base raws) store) := by
  have hnone : createArticle sourceName base title perex url = none := by
    unfold createArticle
    rcases h with h | h
    · simp [h]
    · by_cases ht : ((cleanText title).isEmpty || decide ((cleanText title).length < 10)) = true
      · simp [ht]
      · simp [ht, h]
  have hcol : ∀ (raws : List RawItem),
      collectArticles sourceName base (⟨title, perex, url⟩ :: raws)
        = collectArticles sourceName base raws := by
    intro raws
    unfold collectArticles
    simp [hnone]
  exact ⟨hnone, hcol, fun raws ok now store => by rw [hcol raws]⟩

/-- Closed instance of `createArticle_rejects_invalid`: a too-short title is
dropped before the merge. -/
theorem createArticle_rejects_invalid_witness :
    ((cleanText "short").length < 10
      ∨ (normalizeUrl "http://b" "/x").startsWith ("http") = false)
    ∧ createArticle "demo" "http://b" "short" "p" "/x" = none :=
  ⟨Or.inl (by decide),
    (createArticle_rejects_invalid "demo" "http://b" "short" "p" "/x" (Or.inl (by decide))).1⟩

/-! ## C7: monotonicity of task status transitions -/

/-- C7 counterexample: a scheduler event callback changes a terminal record —
a CANCELLED task (cancelled via `remove_job` while its job was mid-flight)
is overwritten to COMPLETED by `_job_executed_listener` when the executed
event arrives, so terminal states are not absorbing. -/
theorem terminal_not_absorbing_cex :
    (getTask ⟨[("t", ⟨"t", .periodicScrapeKind, .cancelled, none, 0, some 1, some 2, none,
          none, 0⟩)], [], []⟩ "t").map TaskInfo.status = some .cancelled
    ∧ (getTask (jobExecutedListener
          ⟨[("t", ⟨"t", .periodicScrapeKind, .cancelled, none, 0, some 1, some 2, none,
              none, 0⟩)], [], []⟩
          "t" none (some 5) 9) "t").map TaskInfo.status = some .completed := by
  exact ⟨by decide, by decide⟩

/-- C7 amended: transitions are monotonic within one execution of
`_execute_task` — the record is marked RUNNING and then COMPLETED on success
or FAILED on error — but terminal states are not absorbing across the full
operation set: the scheduler event listener overwrites any status, and a
recurring firing re-enters RUNNING from COMPLETED. -/
theorem execute_single_run_monotone (t : TaskInfo) (now n : Nat) (e : String) :
    (startPhase now t).status = .running
    ∧ (executeTaskRecord now (.ok n) t).status = .completed
    ∧ (executeTaskRecord now (.err e) t).status = .failed :=
  ⟨rfl, rfl, rfl⟩

/-! ## C8: cancelling an already-completed task -/

/-- C8 counterexample: for a recurring task whose record is COMPLETED while
its job is still in the scheduler's job store, `cancel_task` is not a no-op:
it returns True and overwrites COMPLETED with CANCELLED. -/
theorem cancel_after_completed_cex :
    (cancelTask ⟨[("t", ⟨"t", .periodicScrapeKind, .completed, none, 0, some 1, some 2,
          some 4, none, 1⟩)], [], ["t"]⟩ "t" 9).1 = true
    ∧ (getTask (cancelTask ⟨[("t", ⟨"t", .periodicScrapeKind, .completed, none, 0, some 1,
          some 2, some 4, none, 1⟩)], [], ["t"]⟩ "t" 9).2 "t").map TaskInfo.status
        = some .cancelled
    ∧ (getTask ⟨[("t", ⟨"t", .periodicScrapeKind, .completed, none, 0, some 1, some 2,
          some 4, none, 1⟩)], [], ["t"]⟩ "t").map TaskInfo.status = some .completed := by
  exact ⟨by decide, by decide, by decide⟩

/-- C8 amended: cancelling a COMPLETED task is a no-op returning False
provided the task has no live handle in `running_tasks` and no job in the
scheduler — which holds for every immediate task, whose handle is done and
removed on completion and which is never scheduled.  (A COMPLETED recurring
task still in the scheduler is instead re-cancelled, as the counterexample
shows.) -/
theorem cancelTask_completed_noop (q : QueueState) (id : String) (now : Nat) (t : TaskInfo)
    (hget : getTask q id = some t) (hst : t.status = .completed)
    (hrun : ∀ kv ∈ q.running, kv.1 = id → kv.2 = true)
    (hsch : q.scheduled.contains id = false) :
    cancelTask q id now = (false, q) := by
  unfold cancelTask
  cases hfind : q.running.find? (fun kv => kv.1 == id) with
  | none =>
    unfold cancelViaScheduler
    rw [hsch]
    rfl
  | some kv =>
    have hmem := List.mem_of_find?_eq_some hfind
    have hp := List.find?_some hfind
    have hid : kv.1 = id := by simpa using hp
    have hdone : kv.2 = true := hrun kv hmem hid
    show (if (!kv.2) = true then
        (true, setTask q id (fun t => { t with status := .cancelled, completed_at := some now }))
      else cancelViaScheduler q id now) = (false, q)
    rw [hdone]
    show cancelViaScheduler q id now = (false, q)
    unfold cancelViaScheduler
    rw [hsch]
    rfl

/-- Closed instance of `cancelTask_completed_noop`: an immediate task whose
handle is done, with nothing scheduled. -/
theorem cancelTask_completed_noop_witness :
    getTask ⟨[("t", ⟨"t", .scrapeAllKind, .completed, none, 0, some 1, some 2, some 3,
          none, 1⟩)], [("t", true)], []⟩ "t"
        = some ⟨"t", .scrapeAllKind, .completed, none, 0, some 1, some 2, some 3, none, 1⟩
    ∧ cancelTask ⟨[("t", ⟨"t", .scrapeAllKind, .completed, none, 0, some 1, some 2, some 3,
          none, 1⟩)], [("t", true)], []⟩ "t" 9
        = (false, ⟨[("t", ⟨"t", .scrapeAllKind, .completed, none, 0, some 1, some 2, some 3,
            none, 1⟩)], [("t", true)], []⟩) :=
  ⟨by decide,
    cancelTask_completed_noop
      ⟨[("t", ⟨"t", .scrapeAllKind, .completed, none, 0, some 1, some 2, some 3, none, 1⟩)],
        [("t", true)], []⟩
      "t" 9
      ⟨"t", .scrapeAllKind, .completed, none, 0, some 1, some 2, some 3, none, 1⟩
      (by decide) (by decide) (by decide) (by decide)⟩

/-! ## C3: fingerprint stability

The normalization pipeline strips boundary whitespace before removing
punctuation, so boundary punctuation can shield whitespace that then
survives (collapsed to one blank) in the normalized title.  The stability
statement therefore fails in general and holds on titles that begin and end
with a word character. -/

theorem word_not_space {c : Char} (h : pyIsWordChar c = true) : pyIsSpace c = false := by
  have h₁ := ((Bool.and_eq_true _ _).mp h).1
  simpa using h₁

theorem dropWhile_eq_self_of_head {l : List Char}
    (h : l.head?.all (fun c => !pyIsSpace c) = true) : l.dropWhile pyIsSpace = l := by
  cases l with
  | nil => rfl
  | cons c cs =>
    have hc : pyIsSpace c = false := by simpa using h
    rw [List.dropWhile_cons]
    simp [hc]

theorem stripLead_eq_self {l : List Char}
    (h : l.head?.all (fun c => !pyIsSpace c) = true) : stripLead l = l :=
  dropWhile_eq_self_of_head h

theorem stripTrail_eq_self {l : List Char}
    (h : l.getLast?.all (fun c => !pyIsSpace c) = true) : stripTrail l = l := by
  unfold stripTrail
  have h' : l.reverse.head?.all (fun c => !pyIsSpace c) = true := by
    rw [List.head?_reverse]; exact h
  rw [dropWhile_eq_self_of_head h', List.reverse_reverse]

theorem pyStrip_eq_self {l : List Char}
    (h₁ : l.head?.all (fun c => !pyIsSpace c) = true)
    (h₂ : l.getLast?.all (fun c => !pyIsSpace c) = true) : pyStrip l = l := by
  unfold pyStrip
  rw [stripLead_eq_self h₁, stripTrail_eq_self h₂]

theorem head?_collapseWS {l : List Char} {c : Char} (hh : l.head? = some c)
    (hs : pyIsSpace c = false) : (collapseWS l).head? = some c := by
  cases l with
  | nil => cases hh
  | cons a as =>
    have ha : a = c := by simpa using hh
    subst ha
    cases as with
    | nil => simp [collapseWS, hs]
    | cons b bs => simp [collapseWS, hs]

theorem getLast?_cons_of_getLast? {α : Type} {y : List α} {b : α} (x : α)
    (h : y.getLast? = some b) : (x :: y).getLast? = some b := by
  cases y with
  | nil => cases h
  | cons z zs => rw [List.getLast?_cons_cons]; exact h

theorem getLast?_collapseWS {l : List Char} {b : Char} (hl : l.getLast? = some b)
    (hs : pyIsSpace b = false) : (collapseWS l).getLast? = some b := by
  induction l with
  | nil => cases hl
  | cons c cs ih =>
    cases cs with
    | nil =>
      have hc : c = b := by simpa using hl
      subst hc
      simp [collapseWS, hs]
    | cons d ds =>
      rw [List.getLast?_cons_cons] at hl
      have ihh := ih hl
      by_cases hcd : (pyIsSpace c && pyIsSpace d) = true
      · have he : collapseWS (c :: d :: ds) = collapseWS (d :: ds) := by
          simp [collapseWS, hcd]
        rw [he]; exact ihh
      · have he : collapseWS (c :: d :: ds)
            = (if pyIsSpace c then ' ' else c) :: collapseWS (d :: ds) := by
          simp [collapseWS, hcd]
        rw [he]
        exact getLast?_cons_of_getLast? _ ihh

theorem depunct_cons_word {c : Char} (l : List Char) (h : pyIsWordChar c = true) :
    depunct (c :: l) = c :: depunct l := by
  unfold depunct
  rw [List.filter_cons]
  simp [h]

theorem depunct_concat_word {b : Char} (l : List Char) (h : pyIsWordChar b = true) :
    depunct (l ++ [b]) = depunct l ++ [b] := by
  unfold depunct
  rw [List.filter_append]
  simp [h]

theorem collapse_depunct_strip_eq {u : List Char} (hb : wordBoundedChars u = true) :
    collapseWS (depunct (pyStrip u)) = pyStrip (collapseWS (depunct u)) := by
  obtain ⟨hh, hl⟩ := (Bool.and_eq_true _ _).mp hb
  cases u with
  | nil => rfl
  | cons c cs =>
    have hcw : pyIsWordChar c = true := by simpa using hh
    cases hgl : (c :: cs).getLast? with
    | none =>
      have hs := (List.getLast?_isSome (l := c :: cs)).mpr (by simp)
      rw [hgl] at hs
      cases hs
    | some b =>
      have hbw : pyIsWordChar b = true := by
        rw [hgl] at hl; simpa using hl
      have hcs : pyIsSpace c = false := word_not_space hcw
      have hbs : pyIsSpace b = false := word_not_space hbw
      have hstrip : pyStrip (c :: cs) = c :: cs :=
        pyStrip_eq_self (by simp [hcs]) (by rw [hgl]; simp [hbs])
      rw [hstrip]
      have hdep : depunct (c :: cs) = c :: depunct cs := depunct_cons_word _ hcw
      have hhead : (collapseWS (depunct (c :: cs))).head? = some c := by
        rw [hdep]; exact head?_collapseWS rfl hcs
      obtain ⟨L, hL⟩ : ∃ L, c :: cs = L ++ [b] := by
        rcases List.eq_nil_or_concat (c :: cs) with h0 | ⟨L, b', hLb⟩
        · cases h0
        · refine ⟨L, ?_⟩
          rw [List.concat_eq_append] at hLb
          have hgl' : (c :: cs).getLast? = some b' := by
            rw [hLb]; exact List.getLast?_concat _
          rw [hgl] at hgl'
          have hb' : b' = b := by simpa using hgl'.symm
          rw [hb'] at hLb
          exact hLb
      have hlast : (collapseWS (depunct (c :: cs))).getLast? = some b := by
        rw [hL, depunct_concat_word _ hbw]
        exact getLast?_collapseWS (List.getLast?_concat _) hbs
      have hstrip₂ : pyStrip (collapseWS (depunct (c :: cs))) = collapseWS (depunct (c :: cs)) :=
        pyStrip_eq_self (by rw [hhead]; simp [hcs]) (by rw [hlast]; simp [hbs])
      rw [hstrip₂]

theorem normalizedTitle_eq_specCanonical {t : String} (hb : wordBounded t = true) :
    normalizedTitle t = specCanonical t :=
  collapse_depunct_strip_eq hb

/-- C3 counterexample: `" a"` and `"! a"` differ only in punctuation and
whitespace, yet their fingerprints differ — the code strips before removing
punctuation, so the `!` shields the blank, which survives in the normalized
form `" a"` against `"a"`. -/
theorem fingerprint_stability_cex :
    differsOnlyInPunctCaseWS " a" "! a" = true
    ∧ titleHashOf " a" ≠ titleHashOf "! a" :=
  ⟨by decide, by decide⟩

/-- C3 amended: two titles differing only in punctuation, case, or whitespace
receive the same fingerprint provided each (lowered) title begins and ends
with a word character; the restriction is forced because boundary
punctuation shielding whitespace survives normalization (see the
counterexample). -/
theorem fingerprint_stable_word_bounded (t₁ t₂ : String)
    (h : differsOnlyInPunctCaseWS t₁ t₂ = true)
    (h₁ : wordBounded t₁ = true) (h₂ : wordBounded t₂ = true) :
    titleHashOf t₁ = titleHashOf t₂ := by
  have hc : specCanonical t₁ = specCanonical t₂ := by
    unfold differsOnlyInPunctCaseWS at h
    exact eq_of_beq h
  unfold titleHashOf
  rw [normalizedTitle_eq_specCanonical h₁, normalizedTitle_eq_specCanonical h₂, hc]

/-- Closed instance of `fingerprint_stable_word_bounded` at two titles
differing in case, punctuation and inner whitespace. -/
theorem fingerprint_stable_word_bounded_witness :
    differsOnlyInPunctCaseWS "Foo,   Bar" "foo bar" = true
    ∧ wordBounded "Foo,   Bar" = true
    ∧ wordBounded "foo bar" = true
    ∧ titleHashOf "Foo,   Bar" = titleHashOf "foo bar" :=
  ⟨by decide, by decide, by decide,
    fingerprint_stable_word_bounded "Foo,   Bar" "foo bar" (by decide) (by decide) (by decide)⟩

end NewsScraper
